import Mathlib

/-!
# Verification of the NetworkFirewall Rule Group reconciliation logic

A shallow embedding of `internal/service/networkfirewall` rule-group
resource code (`ResourceRuleGroup`: create / read / update / delete,
`FindRuleGroupByARN`, `statusRuleGroup`, `waitRuleGroupDeleted`) together
with the generic polling loop these functions drive.

Modelling conventions:
* Go pointers (`*string`, `*int64`, pointer-typed structs) become `Option`;
  `aws.StringValue`/`aws.Int64Value` become `Option.getD` with the zero value.
* The remote (the AWS client `conn`) is a record of functions; calls that may
  observe a changing remote world take a `Nat` tick argument indexing the
  world state at call time.
* The deeply nested rule structures (the `expand…`/`flatten…` converters of
  the source) are irrelevant to every property below and are kept opaque:
  a `RuleGroup` carries an uninterpreted `RuleGroupBlock` token.
* Fallible Go code returning `(T, error)` becomes `Except AWSErr T`; the
  Terraform diagnostics result becomes `Except String _`.
-/

namespace NetworkFirewall

/-- A classified AWS API error: code plus message, as matched by
`tfawserr.ErrCodeEquals` / `…MessageContains`. -/
structure AWSErr where
  code : String
  message : String
deriving DecidableEq, Repr

/-- `networkfirewall.ErrCodeResourceNotFoundException` (AWS SDK constant). -/
def errCodeResourceNotFoundException : String := "ResourceNotFoundException"

/-- `networkfirewall.ErrCodeInvalidOperationException` (AWS SDK constant). -/
def errCodeInvalidOperationException : String := "InvalidOperationException"

/-- `networkfirewall.ResourceStatusDeleting` (AWS SDK enum value). -/
def resourceStatusDeleting : String := "DELETING"

/-- `networkfirewall.ResourceStatusActive` (AWS SDK enum value). -/
def resourceStatusActive : String := "ACTIVE"

/-- Opaque token standing for the nested rule configuration
(`rule_variables` / `rules_source` / `stateful_rule_options` …, source lines
666-1396); no claim depends on its internal structure. -/
structure RuleGroupBlock where
  tag : Nat
deriving DecidableEq, Repr

/-- `networkfirewall.RuleGroup` (SDK struct), kept opaque. -/
structure RuleGroup where
  block : RuleGroupBlock
deriving DecidableEq, Repr

/-- `expandRuleGroup` (source line 772): converts the configuration block to
the SDK struct; its nested field mapping is opaque here. -/
def expandRuleGroup (b : RuleGroupBlock) : RuleGroup :=
  { block := b }

/-- `flattenRuleGroup` (source line 1079) restricted to what the state
records: `nil` flattens to an empty list (here `none`), otherwise a
one-element list holding the block. -/
def flattenRuleGroup (r : Option RuleGroup) : Option RuleGroupBlock :=
  r.map RuleGroup.block

/-- `networkfirewall.EncryptionConfiguration` (SDK struct); its expand/flatten
pair lives outside the given sources, so the configuration is modelled as
already expanded. -/
structure EncryptionConfiguration where
  keyId : Option String
  typ : String
deriving DecidableEq, Repr

/-- `networkfirewall.RuleGroupResponse` (SDK struct), the fields the resource
code reads; every field is pointer-typed in Go, hence `Option`. -/
structure RuleGroupResponse where
  ruleGroupArn : Option String
  ruleGroupName : Option String
  ruleGroupStatus : Option String
  description : Option String
  capacity : Option Int
  typ : Option String
  encryptionConfiguration : Option EncryptionConfiguration
  tags : List (String × String)
deriving DecidableEq, Repr

/-- `networkfirewall.DescribeRuleGroupOutput` (SDK struct). -/
structure DescribeRuleGroupOutput where
  updateToken : Option String
  ruleGroup : Option RuleGroup
  ruleGroupResponse : Option RuleGroupResponse
deriving DecidableEq, Repr

/-- `networkfirewall.CreateRuleGroupOutput` (SDK struct). -/
structure CreateRuleGroupOutput where
  updateToken : Option String
  ruleGroupResponse : Option RuleGroupResponse
deriving DecidableEq, Repr

/-- `networkfirewall.CreateRuleGroupInput` (SDK struct), the fields the
create operation fills (source lines 462-483). -/
structure CreateRuleGroupInput where
  capacity : Int
  ruleGroupName : String
  tags : List (String × String)
  typ : String
  description : Option String
  encryptionConfiguration : Option EncryptionConfiguration
  ruleGroup : Option RuleGroup
  rules : Option String
deriving DecidableEq, Repr

/-- `networkfirewall.UpdateRuleGroupInput` (SDK struct), the fields the
update operation fills (source lines 536-568). -/
structure UpdateRuleGroupInput where
  description : Option String
  encryptionConfiguration : Option EncryptionConfiguration
  ruleGroupArn : String
  typ : String
  updateToken : String
  rules : Option String
  ruleGroup : Option RuleGroup
deriving DecidableEq, Repr

/-- The remote client (`*networkfirewall.NetworkFirewall`). Describe and
delete observe a remote world that may change between calls, indexed by the
`Nat` tick. -/
structure Conn where
  createRuleGroup : CreateRuleGroupInput → Except AWSErr CreateRuleGroupOutput
  describeRuleGroup : Nat → String → Except AWSErr (Option DescribeRuleGroupOutput)
  updateRuleGroup : UpdateRuleGroupInput → Except AWSErr Unit
  deleteRuleGroup : Nat → String → Except AWSErr Unit

/-- The error vocabulary of the Finder: the spec's `FindError`.
`notFound` is `retry.NotFoundError` (carrying the last AWS error),
`emptyResult` is `tfresource.EmptyResultError`, and `awsErr` is any other
remote failure propagated unchanged (the spec's `Transport`). -/
inductive FindErr where
  | notFound (lastError : AWSErr)
  | emptyResult
  | awsErr (e : AWSErr)
deriving DecidableEq, Repr

/-- Modelled from the spec: `tfresource.NotFound` (internal/tfresource, not
under src/) — the predicate recognising the spec's `FindError::NotFound`
class. `EmptyResultError` converts to a `retry.NotFoundError` via its `As`
method, so both absence signals are NotFound; transport errors are not. -/
def FindErr.isNotFoundErr : FindErr → Bool
  | .notFound _ => true
  | .emptyResult => true
  | .awsErr _ => false

/-- `FindRuleGroupByARN` (source lines 608-631): one describe call;
`ResourceNotFoundException` becomes a typed `notFound` carrying the original
error; any other remote failure propagates unchanged; a nil reply or a nil
`RuleGroupResponse` becomes `emptyResult`. -/
def FindRuleGroupByARN (conn : Conn) (t : Nat) (arn : String) :
    Except FindErr DescribeRuleGroupOutput :=
  match conn.describeRuleGroup t arn with
  | .error e =>
    if e.code = errCodeResourceNotFoundException then
      .error (.notFound e)
    else
      .error (.awsErr e)
  | .ok none => .error .emptyResult
  | .ok (some output) =>
    if output.ruleGroupResponse.isNone then
      .error .emptyResult
    else
      .ok output

/-- The result triple of a `retry.StateRefreshFunc`:
`(result, state, error)`. -/
def StateRefreshResult : Type :=
  Option RuleGroup × String × Option FindErr

/-- `statusRuleGroup` (source lines 633-647): one Find per tick; NotFound
becomes the `(nil, "", nil)` gone-signal; other errors propagate; otherwise
the rule group and its status string are returned. The `RuleGroupResponse`
dereference is safe because Find guarantees it is present (see
`FindRuleGroupByARN_ok_shape`); the model reads it through `Option.map`. -/
def statusRuleGroup (conn : Conn) (arn : String) : Nat → StateRefreshResult :=
  fun t =>
    match FindRuleGroupByARN conn t arn with
    | .error e =>
      if e.isNotFoundErr then (none, "", none)
      else (none, "", some e)
    | .ok output =>
      (output.ruleGroup,
       (output.ruleGroupResponse.map fun r => r.ruleGroupStatus.getD "").getD "",
       none)

/-- The spec's `PollOutcome`: `Converged(finalState)` carries the last
refresh result (the `*networkfirewall.RuleGroup` the waiter returns),
`Failed(reason)` the error, and `TimedOut` the deadline expiry. -/
inductive PollOutcome where
  | converged (result : Option RuleGroup)
  | failed (reason : FindErr)
  | timedOut
deriving DecidableEq, Repr

/-- The waiter configuration, shaped like the source's
`retry.StateChangeConf` literal (source lines 650-655): `Pending`, `Target`,
`Refresh`, `Timeout`, plus the spec's explicit failure-status set and polling
interval (§4.3). -/
structure StateChangeConf where
  pending : List String
  target : List String
  failure : List String
  refresh : Nat → StateRefreshResult
  timeout : Nat
  interval : Nat

/-- Modelled from the spec: the Poller loop of §4.3
(`retry.StateChangeConf.WaitForStateContext` of the plugin SDK is not under
src/). Iteration `t` runs at elapsed time `t * interval`; the loop stops with
`TimedOut` once the timeout has elapsed. Each tick refreshes: a refresh
error fails immediately (the consecutive-transport-error cap of §4.3 is
never exercised below); a nil result is the NotFound signal, which the
call-site configures as `Converged` by polling for absence with an empty
target set (as `waitRuleGroupDeleted` does) and as `Failed` otherwise; a
status in the failure set fails, a status in the target set converges, and
every other status — the `pending` ones and unmapped ones alike — is
transient: sleep one interval and continue. Returns the outcome and the
elapsed time at return. -/
def waitForStateAux (conf : StateChangeConf) : Nat → Nat → PollOutcome × Nat
  | t, 0 => (PollOutcome.timedOut, t * conf.interval)
  | t, fuel + 1 =>
    if conf.timeout ≤ t * conf.interval then
      (PollOutcome.timedOut, t * conf.interval)
    else
      match conf.refresh t with
      | (_, _, some e) => (PollOutcome.failed e, t * conf.interval)
      | (none, _, none) =>
        if conf.target.isEmpty then
          (PollOutcome.converged none, t * conf.interval)
        else
          (PollOutcome.failed (FindErr.notFound
            { code := "", message := "could not find resource" }), t * conf.interval)
      | (some rg, status, none) =>
        if conf.failure.contains status then
          (PollOutcome.failed (FindErr.awsErr
            { code := "UnexpectedState", message := status }), t * conf.interval)
        else if conf.target.contains status then
          (PollOutcome.converged (some rg), t * conf.interval)
        else
          waitForStateAux conf (t + 1) fuel

/-- The Poller entry point: enough fuel for every tick up to the timeout. -/
def waitForState (conf : StateChangeConf) : PollOutcome × Nat :=
  waitForStateAux conf 0 (conf.timeout / conf.interval + 1)

/-- `waitRuleGroupDeleted`'s `retry.StateChangeConf` literal (source lines
650-655): `Pending: [DELETING]`, `Target: []` (polling for absence, so the
NotFound signal converges), no failure statuses. -/
def ruleGroupDeletedConf (conn : Conn) (arn : String) (timeout interval : Nat) :
    StateChangeConf :=
  { pending := [resourceStatusDeleting]
    target := []
    failure := []
    refresh := statusRuleGroup conn arn
    timeout := timeout
    interval := interval }

/-- `waitRuleGroupDeleted` (source lines 649-664). The source's
`(outputRaw, err)` pair maps to the `PollOutcome`; the elapsed time is kept
for the bounded-wait property. -/
def waitRuleGroupDeleted (conn : Conn) (arn : String) (timeout interval : Nat) :
    PollOutcome × Nat :=
  waitForState (ruleGroupDeletedConf conn arn timeout interval)

/-- The Terraform state and configuration view (`*schema.ResourceData`) of
one rule group, restricted to the attributes the resource code touches.
Optional attributes are `Option`-typed: `none` is the schema zero value, so
`d.GetOk` is `Option.isSome` and `d.Get` is `Option.getD` of the zero value.
`hasChange…` mirrors `d.HasChange` per attribute, `isNew` mirrors
`d.IsNewResource()`. -/
structure ResourceData where
  id : String
  isNew : Bool
  arn : String
  capacity : Int
  name : String
  typ : String
  description : Option String
  encryptionConfiguration : Option EncryptionConfiguration
  ruleGroupCfg : Option RuleGroupBlock
  rules : Option String
  tags : List (String × String)
  updateToken : Option String
  hasChangeDescription : Bool
  hasChangeEncryptionConfiguration : Bool
  hasChangeRuleGroup : Bool
  hasChangeRules : Bool
  hasChangeType : Bool
deriving DecidableEq, Repr

/-- One remote API call, recorded so theorems can talk about how many calls
an operation issues and in which order. -/
inductive RemoteCall where
  | createCall (input : CreateRuleGroupInput)
  | describeCall (arn : String)
  | updateCall (input : UpdateRuleGroupInput)
  | deleteCall (arn : String)
deriving DecidableEq, Repr

/-- Recognises a Create call in a trace. -/
def RemoteCall.isCreateCall : RemoteCall → Bool
  | .createCall _ => true
  | _ => false

/-- Recognises a Describe call in a trace. -/
def RemoteCall.isDescribeCall : RemoteCall → Bool
  | .describeCall _ => true
  | _ => false

/-- The error message of a failed read (source line 512, without the cause
suffix). -/
def readErrorMessage (id : String) : String :=
  "reading NetworkFirewall Rule Group (" ++ id ++ ")"

/-- `resourceRuleGroupRead` (source lines 496-530): one Find; a successful
reply with a nil `RuleGroup` is turned into an empty-result error; a
NotFound-class error on a resource that is not newly created clears the id
(removes it from state) and reports success; any surviving error is
surfaced; otherwise the state is refreshed from the response. The
`response` dereference in the success branch is protected by Find's
non-nil guarantee; the unreachable `none` branch reports an error. -/
def resourceRuleGroupRead (conn : Conn) (t : Nat) (d : ResourceData) :
    List RemoteCall × Except String ResourceData :=
  let trace := [RemoteCall.describeCall d.id]
  let found : Except FindErr DescribeRuleGroupOutput :=
    match FindRuleGroupByARN conn t d.id with
    | .ok output =>
      if output.ruleGroup.isNone then .error .emptyResult else .ok output
    | .error e => .error e
  match found with
  | .error e =>
    if !d.isNew && e.isNotFoundErr then
      (trace, .ok { d with id := "" })
    else
      (trace, .error (readErrorMessage d.id))
  | .ok output =>
    match output.ruleGroupResponse with
    | none => (trace, .error (readErrorMessage d.id))
    | some response =>
      (trace, .ok { d with
        arn := response.ruleGroupArn.getD ""
        capacity := response.capacity.getD 0
        description := response.description
        encryptionConfiguration := response.encryptionConfiguration
        name := response.ruleGroupName.getD ""
        ruleGroupCfg := flattenRuleGroup output.ruleGroup
        typ := response.typ.getD ""
        updateToken := output.updateToken
        tags := response.tags })

/-- The `CreateRuleGroupInput` the create operation builds (source lines
462-483): required attributes via `d.Get`, optional ones via `d.GetOk`. -/
def ruleGroupCreateInput (d : ResourceData) : CreateRuleGroupInput :=
  { capacity := d.capacity
    ruleGroupName := d.name
    tags := d.tags
    typ := d.typ
    description := d.description
    encryptionConfiguration := d.encryptionConfiguration
    ruleGroup := d.ruleGroupCfg.map expandRuleGroup
    rules := d.rules }

/-- The id the create operation stores:
`aws.StringValue(output.RuleGroupResponse.RuleGroupArn)` (source line 491; a
nil response, on which Go would panic, reads as the empty ARN). -/
def createOutputArn (output : CreateRuleGroupOutput) : String :=
  (output.ruleGroupResponse.bind RuleGroupResponse.ruleGroupArn).getD ""

/-- `resourceRuleGroupCreate` (source lines 458-494): one Create call; on
failure an error, on success the returned ARN becomes the id and the
operation finishes with the ordinary read (`IsNewResource` holds during
it). No polling loop. -/
def resourceRuleGroupCreate (conn : Conn) (d : ResourceData) :
    List RemoteCall × Except String ResourceData :=
  let input := ruleGroupCreateInput d
  match conn.createRuleGroup input with
  | .error _ =>
    ([RemoteCall.createCall input],
     .error ("creating NetworkFirewall Rule Group (" ++ d.name ++ ")"))
  | .ok output =>
    let d1 := { d with id := createOutputArn output, isNew := true }
    let res := resourceRuleGroupRead conn 0 d1
    (RemoteCall.createCall input :: res.1, res.2)

/-- `d.HasChanges("description", "encryption_configuration", "rule_group",
"rules", "type")` (source line 535). -/
def hasRuleGroupChanges (d : ResourceData) : Bool :=
  d.hasChangeDescription || d.hasChangeEncryptionConfiguration ||
    d.hasChangeRuleGroup || d.hasChangeRules || d.hasChangeType

/-- The `UpdateRuleGroupInput` the update operation builds (source lines
536-568). The UpdateRuleGroup API allows exactly one of `Rules` or
`RuleGroup`: a changed `rules` wins (`d.Get`, so possibly the empty string),
otherwise a changed and present `rule_group`; if neither changed, one of the
two must still be sent, and a present `rules` again wins over a present
`rule_group`. -/
def ruleGroupUpdateInput (d : ResourceData) : UpdateRuleGroupInput :=
  let base : UpdateRuleGroupInput :=
    { description := d.description
      encryptionConfiguration := d.encryptionConfiguration
      ruleGroupArn := d.id
      typ := d.typ
      updateToken := d.updateToken.getD ""
      rules := none
      ruleGroup := none }
  let base :=
    if d.hasChangeRules then
      { base with rules := some (d.rules.getD "") }
    else if d.hasChangeRuleGroup then
      match d.ruleGroupCfg with
      | some blk => { base with ruleGroup := some (expandRuleGroup blk) }
      | none => base
    else base
  if base.rules.isNone && base.ruleGroup.isNone then
    match d.rules with
    | some r => { base with rules := some r }
    | none =>
      match d.ruleGroupCfg with
      | some blk => { base with ruleGroup := some (expandRuleGroup blk) }
      | none => base
  else base

/-- `resourceRuleGroupUpdate` (source lines 532-578): when any of the five
attributes changed, one UpdateRuleGroup call, surfacing its error; in every
case the operation finishes with the ordinary read. No polling loop. -/
def resourceRuleGroupUpdate (conn : Conn) (d : ResourceData) :
    List RemoteCall × Except String ResourceData :=
  if hasRuleGroupChanges d then
    let input := ruleGroupUpdateInput d
    match conn.updateRuleGroup input with
    | .error _ =>
      ([RemoteCall.updateCall input],
       .error ("updating NetworkFirewall Rule Group (" ++ d.id ++ ")"))
    | .ok _ =>
      let res := resourceRuleGroupRead conn 0 d
      (RemoteCall.updateCall input :: res.1, res.2)
  else
    resourceRuleGroupRead conn 0 d

/-- Whether `pat` occurs inside `s` (`strings.Contains` of the Go helper). -/
def strContainsSub (s pat : String) : Bool :=
  2 ≤ (s.splitOn pat).length

/-- Modelled from the spec: `tfresource.RetryWhenAWSErrMessageContains`
(internal/tfresource, not under src/) — §4.4/§7: a Transient class of
initiating-call errors is retried with bounded attempts. The call is retried
while it fails with the given code and a message containing `msg`, up to
`fuel` retries; any other outcome is returned as is. -/
def retryWhenAWSErrMessageContains (f : Nat → Except AWSErr Unit)
    (code msg : String) : Nat → Nat → Except AWSErr Unit
  | t, 0 => f t
  | t, fuel + 1 =>
    match f t with
    | .ok a => .ok a
    | .error e =>
      if e.code = code && strContainsSub e.message msg then
        retryWhenAWSErrMessageContains f code msg (t + 1) fuel
      else
        .error e

/-- The delete timeout (source line 582, in seconds): 10 minutes. -/
def deleteTimeout : Nat := 600

/-- `resourceRuleGroupDelete` (source lines 580-606): the delete call,
retried while the rule group is still in use; a `ResourceNotFoundException`
from the delete call itself is success (already gone); any other error is
surfaced; otherwise the operation waits for the rule group to disappear and
surfaces a failed or timed-out wait. -/
def resourceRuleGroupDelete (conn : Conn) (d : ResourceData)
    (interval retryFuel : Nat) : Except String Unit :=
  match retryWhenAWSErrMessageContains (fun t => conn.deleteRuleGroup t d.id)
      errCodeInvalidOperationException
      "Unable to delete the object because it is still in use" 0 retryFuel with
  | .error e =>
    if e.code = errCodeResourceNotFoundException then
      .ok ()
    else
      .error ("deleting NetworkFirewall Rule Group (" ++ d.id ++ ")")
  | .ok _ =>
    match waitRuleGroupDeleted conn d.id deleteTimeout interval with
    | (PollOutcome.converged _, _) => .ok ()
    | _ => .error ("waiting for NetworkFirewall Rule Group (" ++ d.id ++ ") delete")

/-- Whether a lifecycle operation reported success (a nil diagnostics). -/
def reconcileOk (r : Except String ResourceData) : Bool :=
  match r with
  | .ok _ => true
  | .error _ => false

/-! Concrete fixtures used by the closed theorems below. -/

/-- A concrete opaque rule configuration block. -/
def demoBlock : RuleGroupBlock := { tag := 0 }

/-- Its expansion. -/
def demoRG : RuleGroup := { block := demoBlock }

/-- A concrete `RuleGroupResponse` with the given status. -/
def demoResponse (status : String) : RuleGroupResponse :=
  { ruleGroupArn := some "arn:demo"
    ruleGroupName := some "demo"
    ruleGroupStatus := some status
    description := none
    capacity := some 100
    typ := some "STATEFUL"
    encryptionConfiguration := none
    tags := [] }

/-- A concrete describe reply with the given status. -/
def demoDescribeOutput (status : String) : DescribeRuleGroupOutput :=
  { updateToken := some "tok"
    ruleGroup := some demoRG
    ruleGroupResponse := some (demoResponse status) }

/-- A remote on which every call succeeds but the rule group reports the
transient `DELETING` status forever — it never reaches a success state. -/
def demoStuckConn : Conn :=
  { createRuleGroup := fun _ =>
      .ok { updateToken := some "tok"
            ruleGroupResponse := some (demoResponse resourceStatusDeleting) }
    describeRuleGroup := fun _ _ => .ok (some (demoDescribeOutput resourceStatusDeleting))
    updateRuleGroup := fun _ => .ok ()
    deleteRuleGroup := fun _ _ => .ok () }

/-- A remote on which the rule group reports a status string unknown to the
waiter configuration forever. -/
def demoUnknownStatusConn : Conn :=
  { createRuleGroup := fun _ =>
      .ok { updateToken := some "tok"
            ruleGroupResponse := some (demoResponse "ZZZ_NEW_STATUS") }
    describeRuleGroup := fun _ _ => .ok (some (demoDescribeOutput "ZZZ_NEW_STATUS"))
    updateRuleGroup := fun _ => .ok ()
    deleteRuleGroup := fun _ _ => .ok () }

/-- The `ResourceNotFoundException` error of an absent resource. -/
def rnfeErr : AWSErr :=
  { code := errCodeResourceNotFoundException, message := "resource not found" }

/-- A throttling (transport-class) error. -/
def throttledErr : AWSErr :=
  { code := "ThrottlingException", message := "Rate exceeded" }

/-- A remote on which the rule group is absent: every call reports
`ResourceNotFoundException`. -/
def demoAbsentConn : Conn :=
  { createRuleGroup := fun _ => .error rnfeErr
    describeRuleGroup := fun _ _ => .error rnfeErr
    updateRuleGroup := fun _ => .error rnfeErr
    deleteRuleGroup := fun _ _ => .error rnfeErr }

/-- A remote on which every call fails with a throttling transport error. -/
def demoThrottledConn : Conn :=
  { createRuleGroup := fun _ => .error throttledErr
    describeRuleGroup := fun _ _ => .error throttledErr
    updateRuleGroup := fun _ => .error throttledErr
    deleteRuleGroup := fun _ _ => .error throttledErr }

/-- A desired configuration about to be created (no id yet). -/
def demoData : ResourceData :=
  { id := ""
    isNew := false
    arn := ""
    capacity := 100
    name := "demo"
    typ := "STATEFUL"
    description := none
    encryptionConfiguration := none
    ruleGroupCfg := none
    rules := some "pass tcp any any <> any any"
    tags := []
    updateToken := none
    hasChangeDescription := false
    hasChangeEncryptionConfiguration := false
    hasChangeRuleGroup := false
    hasChangeRules := false
    hasChangeType := false }

/-- An existing resource as seen by an ordinary refresh (not newly
created). -/
def demoOldData : ResourceData :=
  { demoData with id := "arn:demo" }

/-- The same resource during the read that immediately follows creation. -/
def demoNewData : ResourceData :=
  { demoData with id := "arn:demo", isNew := true }

/-- An existing resource whose `rules` string changed, about to be
updated. -/
def demoUpdData : ResourceData :=
  { demoData with id := "arn:demo", hasChangeRules := true, updateToken := some "tok" }

/-- An existing resource whose `rules` string is present but unchanged while
its `rule_group` block changed. -/
def demoPrecedenceData : ResourceData :=
  { demoData with
    id := "arn:demo"
    rules := some "pass"
    hasChangeRules := false
    hasChangeRuleGroup := true
    ruleGroupCfg := some demoBlock }

/-- The §4.3 poll a convergence-polling create would run on the stuck
remote: target the success status, fail on the failure status. -/
def demoCreatePollConf : StateChangeConf :=
  { pending := []
    target := [resourceStatusActive]
    failure := []
    refresh := statusRuleGroup demoStuckConn "arn:demo"
    timeout := 30
    interval := 10 }

/-- A poller configuration whose stubbed Status Extractor never reaches a
terminal state (the fake-clock scenario of §8). -/
def demoFakeRefreshConf : StateChangeConf :=
  { pending := []
    target := [resourceStatusActive]
    failure := ["ERROR"]
    refresh := fun _ => (some demoRG, "PENDING", none)
    timeout := 5
    interval := 2 }

/-! ## Shared helper lemmas -/

/-- A read issues exactly one remote call: the describe of the Finder. -/
theorem resourceRuleGroupRead_trace (conn : Conn) (t : Nat) (d : ResourceData) :
    (resourceRuleGroupRead conn t d).1 = [RemoteCall.describeCall d.id] := by
  simp only [resourceRuleGroupRead]
  split
  · split <;> rfl
  · split <;> rfl

/-- Exit-time bound of the poll loop: as long as the loop invariant holds
(the previous tick, if any, was still before the deadline), the current
elapsed time is at most one interval past the timeout. -/
theorem elapsed_le_of_inv (conf : StateChangeConf) (t : Nat)
    (hinv : t = 0 ∨ (t - 1) * conf.interval < conf.timeout) :
    t * conf.interval ≤ conf.timeout + conf.interval := by
  cases t with
  | zero => simp
  | succ n =>
    rcases hinv with h0 | hlt
    · exact absurd h0 (Nat.succ_ne_zero n)
    · have hlt' : n * conf.interval < conf.timeout := by simpa using hlt
      calc (n + 1) * conf.interval = n * conf.interval + conf.interval := Nat.succ_mul ..
        _ ≤ conf.timeout + conf.interval := Nat.add_le_add_right (Nat.le_of_lt hlt') _

/-- If every refresh is transient (a present result whose status is in
neither the failure nor the target set), the poll loop times out, and it
does so no earlier than the timeout and no later than one interval past
it. -/
theorem waitForStateAux_transient_timedOut (conf : StateChangeConf)
    (h : ∀ u, ∃ rg s, conf.refresh u = (some rg, s, none) ∧
        conf.failure.contains s = false ∧ conf.target.contains s = false) :
    ∀ fuel t, (t = 0 ∨ (t - 1) * conf.interval < conf.timeout) →
      conf.timeout ≤ (t + fuel) * conf.interval →
      (waitForStateAux conf t fuel).1 = PollOutcome.timedOut ∧
      conf.timeout ≤ (waitForStateAux conf t fuel).2 ∧
      (waitForStateAux conf t fuel).2 ≤ conf.timeout + conf.interval := by
  intro fuel
  induction fuel with
  | zero =>
    intro t hinv hfuel
    refine ⟨rfl, ?_, ?_⟩
    · simpa [waitForStateAux] using hfuel
    · simpa [waitForStateAux] using elapsed_le_of_inv conf t hinv
  | succ fuel ih =>
    intro t hinv hfuel
    by_cases hto : conf.timeout ≤ t * conf.interval
    · refine ⟨?_, ?_, ?_⟩
      · simp [waitForStateAux, hto]
      · simp only [waitForStateAux, if_pos hto]
        exact hto
      · simpa [waitForStateAux, hto] using elapsed_le_of_inv conf t hinv
    · obtain ⟨rg, s, hr, hf, htg⟩ := h t
      have hf' : s ∉ conf.failure := by simpa using hf
      have htg' : s ∉ conf.target := by simpa using htg
      have hstep : waitForStateAux conf t (fuel + 1) = waitForStateAux conf (t + 1) fuel := by
        simp [waitForStateAux, hto, hr, hf', htg']
      rw [hstep]
      refine ih (t + 1) (Or.inr ?_) ?_
      · simpa using Nat.lt_of_not_le hto
      · have harr : t + 1 + fuel = t + (fuel + 1) := by omega
        rw [harr]
        exact hfuel

/-- With the fuel `waitForState` supplies, the deadline is reachable: the
timeout is at most `(0 + (timeout / interval + 1)) * interval`. -/
theorem timeout_le_initial_fuel_mul (timeout interval : Nat) (hi : 0 < interval) :
    timeout ≤ (0 + (timeout / interval + 1)) * interval := by
  have h1 := Nat.div_add_mod timeout interval
  have h2 := Nat.mod_lt timeout hi
  calc timeout = interval * (timeout / interval) + timeout % interval := h1.symm
    _ ≤ interval * (timeout / interval) + interval :=
      Nat.add_le_add_left (Nat.le_of_lt h2) _
    _ = (timeout / interval + 1) * interval := by ring
    _ = (0 + (timeout / interval + 1)) * interval := by rw [Nat.zero_add]

/-! ## Claim theorems -/

/-- C10: whenever the Finder returns without an error, the describe reply it
passed on was present and its `RuleGroupResponse` field is non-nil — a nil
or empty remote reply was converted into the empty-result error — so the
success-path dereferences in `resourceRuleGroupRead` and `statusRuleGroup`
cannot hit a nil value. -/
theorem FindRuleGroupByARN_ok_shape (conn : Conn) (t : Nat) (arn : String)
    (out : DescribeRuleGroupOutput)
    (h : FindRuleGroupByARN conn t arn = .ok out) :
    out.ruleGroupResponse.isSome = true ∧
      conn.describeRuleGroup t arn = Except.ok (some out) := by
  unfold FindRuleGroupByARN at h
  revert h
  cases hd : conn.describeRuleGroup t arn with
  | error e =>
    intro h
    by_cases hc : e.code = errCodeResourceNotFoundException <;> simp [hc] at h
  | ok o =>
    cases o with
    | none => intro h; simp at h
    | some output =>
      intro h
      by_cases hn : output.ruleGroupResponse.isNone = true
      · simp [hn] at h
      · simp [hn] at h
        subst h
        refine ⟨?_, rfl⟩
        cases hro : output.ruleGroupResponse with
        | none => rw [hro] at hn; simp at hn
        | some r => rfl

/-- C10 witness: on the concrete stuck remote the Finder succeeds, with the
response present and the reply the remote produced. -/
theorem FindRuleGroupByARN_ok_shape_witness :
    (demoDescribeOutput resourceStatusDeleting).ruleGroupResponse.isSome = true ∧
      demoStuckConn.describeRuleGroup 0 "arn:demo" =
        Except.ok (some (demoDescribeOutput resourceStatusDeleting)) :=
  FindRuleGroupByARN_ok_shape demoStuckConn 0 "arn:demo"
    (demoDescribeOutput resourceStatusDeleting) rfl

/-- C5: the Finder's single describe call maps a `ResourceNotFoundException`
to the distinct typed `notFound` error (carrying the original error), while
every other remote failure is propagated unchanged as the transport-class
error, so callers can tell "already gone" from all other failures. -/
theorem FindRuleGroupByARN_classifies (conn : Conn) (t : Nat) (arn : String)
    (e : AWSErr) (hd : conn.describeRuleGroup t arn = .error e) :
    (e.code = errCodeResourceNotFoundException →
       FindRuleGroupByARN conn t arn = .error (FindErr.notFound e)) ∧
    (e.code ≠ errCodeResourceNotFoundException →
       FindRuleGroupByARN conn t arn = .error (FindErr.awsErr e)) := by
  constructor <;> intro hc <;> simp [FindRuleGroupByARN, hd, hc]

/-- C5 witness: the not-found remote yields the typed NotFound, the
throttled remote yields its error propagated unchanged. -/
theorem FindRuleGroupByARN_classifies_witness :
    FindRuleGroupByARN demoAbsentConn 0 "arn:demo" = .error (FindErr.notFound rnfeErr) ∧
    FindRuleGroupByARN demoThrottledConn 0 "arn:demo" = .error (FindErr.awsErr throttledErr) :=
  ⟨(FindRuleGroupByARN_classifies demoAbsentConn 0 "arn:demo" rnfeErr rfl).1 rfl,
   (FindRuleGroupByARN_classifies demoThrottledConn 0 "arn:demo" throttledErr rfl).2
     (by decide)⟩

/-- C7: when the Finder reports NotFound during a read, a resource that is
not newly created is removed from local state (id cleared) with no error
surfaced, whereas during the read immediately following creation the same
NotFound is surfaced as an error. -/
theorem resourceRuleGroupRead_notFound (conn : Conn) (t : Nat)
    (d : ResourceData) (e : AWSErr)
    (h : FindRuleGroupByARN conn t d.id = .error (FindErr.notFound e)) :
    (d.isNew = false →
       (resourceRuleGroupRead conn t d).2 = .ok { d with id := "" }) ∧
    (d.isNew = true →
       (resourceRuleGroupRead conn t d).2 = .error (readErrorMessage d.id)) := by
  constructor <;> intro hn <;>
    simp [resourceRuleGroupRead, h, hn, FindErr.isNotFoundErr]

/-- C7 witness: on the absent remote, the ordinary refresh removes the
resource from state and succeeds, while the post-create read errors. -/
theorem resourceRuleGroupRead_notFound_witness :
    (resourceRuleGroupRead demoAbsentConn 0 demoOldData).2 =
      .ok { demoOldData with id := "" } ∧
    (resourceRuleGroupRead demoAbsentConn 0 demoNewData).2 =
      .error (readErrorMessage demoNewData.id) :=
  ⟨(resourceRuleGroupRead_notFound demoAbsentConn 0 demoOldData rnfeErr rfl).1 rfl,
   (resourceRuleGroupRead_notFound demoAbsentConn 0 demoNewData rnfeErr rfl).2 rfl⟩

/-- C8: when no terminal status is ever observed — every refresh returns a
present result whose status is neither a failure nor a target status — the
poll loop returns `TimedOut`, and its total elapsed time never exceeds the
configured timeout plus one polling interval (and is at least the
timeout). -/
theorem waitForState_never_terminal_timedOut (conf : StateChangeConf)
    (hi : 0 < conf.interval)
    (h : ∀ u, ∃ rg s, conf.refresh u = (some rg, s, none) ∧
        conf.failure.contains s = false ∧ conf.target.contains s = false) :
    (waitForState conf).1 = PollOutcome.timedOut ∧
      conf.timeout ≤ (waitForState conf).2 ∧
      (waitForState conf).2 ≤ conf.timeout + conf.interval :=
  waitForStateAux_transient_timedOut conf h _ 0 (Or.inl rfl)
    (timeout_le_initial_fuel_mul conf.timeout conf.interval hi)

/-- C8 witness: the stubbed never-terminal Status Extractor with timeout 5
and interval 2 times out at elapsed time 6 ≤ 5 + 2. -/
theorem waitForState_never_terminal_timedOut_witness :
    (waitForState demoFakeRefreshConf).1 = PollOutcome.timedOut ∧
      demoFakeRefreshConf.timeout ≤ (waitForState demoFakeRefreshConf).2 ∧
      (waitForState demoFakeRefreshConf).2 ≤
        demoFakeRefreshConf.timeout + demoFakeRefreshConf.interval :=
  waitForState_never_terminal_timedOut demoFakeRefreshConf (by decide)
    (fun _ => ⟨demoRG, "PENDING", rfl, by decide, by decide⟩)

/-- C4: the delete waiter enumerates no terminal status strings (its target
set is empty and it has no failure set), so any remote status value not in
those sets — every status string, known or unknown, as long as the rule
group itself is still present — is treated as transient: the poll loop
keeps polling until the timeout and returns `TimedOut`, rather than
converging, failing, or erroring on that value. -/
theorem waitRuleGroupDeleted_unmapped_status_transient (conn : Conn)
    (arn : String) (timeout interval : Nat) (hi : 0 < interval)
    (out : Nat → DescribeRuleGroupOutput) (resp : Nat → RuleGroupResponse)
    (s : Nat → String)
    (hdesc : ∀ t, conn.describeRuleGroup t arn = .ok (some (out t)))
    (hrg : ∀ t, (out t).ruleGroup.isSome = true)
    (hresp : ∀ t, (out t).ruleGroupResponse = some (resp t))
    (hst : ∀ t, (resp t).ruleGroupStatus = some (s t))
    (hterm : ∀ t,
      (ruleGroupDeletedConf conn arn timeout interval).failure.contains (s t) = false ∧
      (ruleGroupDeletedConf conn arn timeout interval).target.contains (s t) = false) :
    (waitRuleGroupDeleted conn arn timeout interval).1 = PollOutcome.timedOut ∧
      timeout ≤ (waitRuleGroupDeleted conn arn timeout interval).2 ∧
      (waitRuleGroupDeleted conn arn timeout interval).2 ≤ timeout + interval := by
  have h : ∀ u, ∃ rg st,
      (ruleGroupDeletedConf conn arn timeout interval).refresh u = (some rg, st, none) ∧
      (ruleGroupDeletedConf conn arn timeout interval).failure.contains st = false ∧
      (ruleGroupDeletedConf conn arn timeout interval).target.contains st = false := by
    intro u
    obtain ⟨rg, hrgu⟩ := Option.isSome_iff_exists.mp (hrg u)
    refine ⟨rg, s u, ?_, (hterm u).1, (hterm u).2⟩
    simp [ruleGroupDeletedConf, statusRuleGroup, FindRuleGroupByARN,
      hdesc u, hresp u, hst u, hrgu]
  exact waitForStateAux_transient_timedOut
    (ruleGroupDeletedConf conn arn timeout interval) h _ 0 (Or.inl rfl)
    (timeout_le_initial_fuel_mul timeout interval hi)

/-- C4 witness: a status string unknown to the waiter (`ZZZ_NEW_STATUS`)
keeps the delete waiter polling until it times out within the bound. -/
theorem waitRuleGroupDeleted_unmapped_status_transient_witness :
    (waitRuleGroupDeleted demoUnknownStatusConn "arn:demo" 4 3).1 =
      PollOutcome.timedOut ∧
    4 ≤ (waitRuleGroupDeleted demoUnknownStatusConn "arn:demo" 4 3).2 ∧
    (waitRuleGroupDeleted demoUnknownStatusConn "arn:demo" 4 3).2 ≤ 4 + 3 :=
  waitRuleGroupDeleted_unmapped_status_transient demoUnknownStatusConn "arn:demo" 4 3
    (by decide)
    (fun _ => demoDescribeOutput "ZZZ_NEW_STATUS")
    (fun _ => demoResponse "ZZZ_NEW_STATUS")
    (fun _ => "ZZZ_NEW_STATUS")
    (fun _ => rfl) (fun _ => rfl) (fun _ => rfl) (fun _ => rfl)
    (fun _ => ⟨rfl, rfl⟩)

/-- C3: when the Finder reports NotFound on the very first tick of the
delete-poll (whose empty target set makes NotFound converge), the waiter
returns `Converged` immediately, at elapsed time 0 — no sleep — rather than
failing. -/
theorem waitRuleGroupDeleted_notFound_first_tick (conn : Conn) (arn : String)
    (timeout interval : Nat) (e : AWSErr) (hto : 0 < timeout)
    (hd : conn.describeRuleGroup 0 arn = .error e)
    (hc : e.code = errCodeResourceNotFoundException) :
    waitRuleGroupDeleted conn arn timeout interval =
      (PollOutcome.converged none, 0) := by
  have hr : statusRuleGroup conn arn 0 = (none, "", none) := by
    simp [statusRuleGroup, FindRuleGroupByARN, hd, hc, FindErr.isNotFoundErr]
  have h0 : ¬ (timeout ≤ 0 * interval) := by
    simpa using Nat.not_le.mpr hto
  unfold waitRuleGroupDeleted waitForState
  rw [waitForStateAux]
  simp [ruleGroupDeletedConf, hr, h0]
  omega

/-- C3 witness: on the absent remote, the delete waiter converges on the
first tick with no time elapsed. -/
theorem waitRuleGroupDeleted_notFound_first_tick_witness :
    waitRuleGroupDeleted demoAbsentConn "arn:demo" 600 10 =
      (PollOutcome.converged none, 0) :=
  waitRuleGroupDeleted_notFound_first_tick demoAbsentConn "arn:demo" 600 10
    rnfeErr (by decide) rfl rfl

/-- C2: for an identifier whose remote resource is already absent — the
Finder reports NotFound and the remote delete call reports
`ResourceNotFoundException` — the delete operation returns success rather
than an error (idempotent delete). -/
theorem resourceRuleGroupDelete_absent_ok (conn : Conn) (d : ResourceData)
    (interval retryFuel : Nat) (eFind eDel : AWSErr)
    (hfind : conn.describeRuleGroup 0 d.id = .error eFind)
    (hfc : eFind.code = errCodeResourceNotFoundException)
    (hdel : ∀ t, conn.deleteRuleGroup t d.id = .error eDel)
    (hdc : eDel.code = errCodeResourceNotFoundException) :
    FindRuleGroupByARN conn 0 d.id = .error (FindErr.notFound eFind) ∧
    resourceRuleGroupDelete conn d interval retryFuel = .ok () := by
  refine ⟨by simp [FindRuleGroupByARN, hfind, hfc], ?_⟩
  have hne : ¬ (eDel.code = errCodeInvalidOperationException) := by
    rw [hdc]
    decide
  have hretry : retryWhenAWSErrMessageContains
      (fun t => conn.deleteRuleGroup t d.id) errCodeInvalidOperationException
      "Unable to delete the object because it is still in use" 0 retryFuel =
      .error eDel := by
    cases retryFuel with
    | zero => simp [retryWhenAWSErrMessageContains, hdel 0]
    | succ n => simp [retryWhenAWSErrMessageContains, hdel 0, hne]
  simp [resourceRuleGroupDelete, hretry, hdc]

/-- C2 witness: deleting the already-absent rule group succeeds. -/
theorem resourceRuleGroupDelete_absent_ok_witness :
    FindRuleGroupByARN demoAbsentConn 0 demoOldData.id =
      .error (FindErr.notFound rnfeErr) ∧
    resourceRuleGroupDelete demoAbsentConn demoOldData 1 3 = .ok () :=
  resourceRuleGroupDelete_absent_ok demoAbsentConn demoOldData 1 3 rnfeErr rnfeErr
    rfl rfl (fun _ => rfl) rfl

/-- C1 (amended): the create operation issues exactly one remote Create
call in every run; on success of that call it stores the returned ARN as
the identifier and immediately performs a single read — one describe via
the Finder, with no polling loop — before reporting the result to the
caller. -/
theorem resourceRuleGroupCreate_one_call_single_read (conn : Conn)
    (d : ResourceData) :
    (resourceRuleGroupCreate conn d).1.countP RemoteCall.isCreateCall = 1 ∧
    (∀ output, conn.createRuleGroup (ruleGroupCreateInput d) = .ok output →
      (resourceRuleGroupCreate conn d).1 =
        [RemoteCall.createCall (ruleGroupCreateInput d),
         RemoteCall.describeCall (createOutputArn output)] ∧
      (resourceRuleGroupCreate conn d).2 =
        (resourceRuleGroupRead conn 0
          { d with id := createOutputArn output, isNew := true }).2) := by
  constructor
  · cases hc : conn.createRuleGroup (ruleGroupCreateInput d) with
    | error e =>
      simp [resourceRuleGroupCreate, hc, List.countP_cons, RemoteCall.isCreateCall]
    | ok output =>
      simp [resourceRuleGroupCreate, hc, resourceRuleGroupRead_trace,
        List.countP_cons, RemoteCall.isCreateCall]
  · intro output hc
    constructor
    · simp [resourceRuleGroupCreate, hc, resourceRuleGroupRead_trace]
    · simp [resourceRuleGroupCreate, hc]

/-- C1 (amended) witness: on the stuck remote the create issues its one
Create call, then exactly the single read. -/
theorem resourceRuleGroupCreate_one_call_single_read_witness :
    (resourceRuleGroupCreate demoStuckConn demoData).1.countP
        RemoteCall.isCreateCall = 1 ∧
    (resourceRuleGroupCreate demoStuckConn demoData).1 =
      [RemoteCall.createCall (ruleGroupCreateInput demoData),
       RemoteCall.describeCall "arn:demo"] ∧
    (resourceRuleGroupCreate demoStuckConn demoData).2 =
      (resourceRuleGroupRead demoStuckConn 0
        { demoData with id := "arn:demo", isNew := true }).2 :=
  ⟨(resourceRuleGroupCreate_one_call_single_read demoStuckConn demoData).1,
   (resourceRuleGroupCreate_one_call_single_read demoStuckConn demoData).2
     { updateToken := some "tok"
       ruleGroupResponse := some (demoResponse resourceStatusDeleting) } rfl⟩

/-- C1 counterexample: on this remote every describe reports the
non-success status `DELETING`, so a §4.3 poll whose target statuses are the
success states never converges (it times out); yet the create operation
reports success after exactly one describe. Create therefore does not enter
a polling loop on success states before reporting. -/
theorem resourceRuleGroupCreate_does_not_poll_cx :
    reconcileOk (resourceRuleGroupCreate demoStuckConn demoData).2 = true ∧
    (resourceRuleGroupCreate demoStuckConn demoData).1.countP
        RemoteCall.isDescribeCall = 1 ∧
    statusRuleGroup demoStuckConn "arn:demo" 0 =
      (some demoRG, resourceStatusDeleting, none) ∧
    [resourceStatusActive].contains resourceStatusDeleting = false ∧
    (waitForState demoCreatePollConf).1 = PollOutcome.timedOut :=
  ⟨rfl, rfl, rfl, rfl, rfl⟩

/-- C6 (amended): when any tracked attribute changed, the update operation
issues one modify call and then — exactly as the create operation does
after its Create call — performs the single read of the remote resource
(one describe via the Finder, no polling loop) before returning. -/
theorem resourceRuleGroupUpdate_modify_then_single_read (conn : Conn)
    (d : ResourceData) (hch : hasRuleGroupChanges d = true)
    (hok : conn.updateRuleGroup (ruleGroupUpdateInput d) = .ok ()) :
    (resourceRuleGroupUpdate conn d).1 =
      [RemoteCall.updateCall (ruleGroupUpdateInput d),
       RemoteCall.describeCall d.id] ∧
    (resourceRuleGroupUpdate conn d).2 = (resourceRuleGroupRead conn 0 d).2 := by
  constructor <;> simp [resourceRuleGroupUpdate, hch, hok, resourceRuleGroupRead_trace]

/-- C6 (amended) witness: the changed-rules update on the stuck remote does
its one modify call and the single read. -/
theorem resourceRuleGroupUpdate_modify_then_single_read_witness :
    (resourceRuleGroupUpdate demoStuckConn demoUpdData).1 =
      [RemoteCall.updateCall (ruleGroupUpdateInput demoUpdData),
       RemoteCall.describeCall demoUpdData.id] ∧
    (resourceRuleGroupUpdate demoStuckConn demoUpdData).2 =
      (resourceRuleGroupRead demoStuckConn 0 demoUpdData).2 :=
  resourceRuleGroupUpdate_modify_then_single_read demoStuckConn demoUpdData rfl rfl

/-- C6 counterexample: on this remote the resource never reaches a success
status — a convergence poll as in §4.3 times out — yet the update reports
success after its modify call plus exactly one describe, so it does not
poll the remote resource for convergence. -/
theorem resourceRuleGroupUpdate_does_not_poll_cx :
    reconcileOk (resourceRuleGroupUpdate demoStuckConn demoUpdData).2 = true ∧
    (resourceRuleGroupUpdate demoStuckConn demoUpdData).1.countP
        RemoteCall.isDescribeCall = 1 ∧
    waitForState demoCreatePollConf =
      (PollOutcome.timedOut, demoCreatePollConf.timeout) :=
  ⟨rfl, rfl, rfl⟩

/-- C9 (amended): the update request sets at most one of `Rules` and
`RuleGroup` (never both); a changed `rules` string takes precedence over the
`rule_group` block, and when neither attribute changed a present `rules`
string takes precedence — but a present, unchanged `rules` string yields to
a changed `rule_group` block. -/
theorem ruleGroupUpdateInput_exclusive (d : ResourceData) :
    ((ruleGroupUpdateInput d).rules.isSome &&
        (ruleGroupUpdateInput d).ruleGroup.isSome) = false ∧
    (d.hasChangeRules = true →
      (ruleGroupUpdateInput d).rules = some (d.rules.getD "") ∧
      (ruleGroupUpdateInput d).ruleGroup = none) ∧
    (d.hasChangeRules = false → d.hasChangeRuleGroup = false →
      d.rules.isSome = true →
      (ruleGroupUpdateInput d).rules = d.rules ∧
      (ruleGroupUpdateInput d).ruleGroup = none) := by
  unfold ruleGroupUpdateInput
  cases hcr : d.hasChangeRules <;> cases hcg : d.hasChangeRuleGroup <;>
    cases hrg : d.ruleGroupCfg <;> cases hr : d.rules <;>
      simp [hcr, hcg, hrg, hr]

/-- C9 (amended) witness: with `rules` changed, the request carries the
rules string and no rule group. -/
theorem ruleGroupUpdateInput_exclusive_witness :
    ((ruleGroupUpdateInput demoUpdData).rules.isSome &&
        (ruleGroupUpdateInput demoUpdData).ruleGroup.isSome) = false ∧
    (demoUpdData.hasChangeRules = true →
      (ruleGroupUpdateInput demoUpdData).rules = some (demoUpdData.rules.getD "") ∧
      (ruleGroupUpdateInput demoUpdData).ruleGroup = none) ∧
    (demoUpdData.hasChangeRules = false → demoUpdData.hasChangeRuleGroup = false →
      demoUpdData.rules.isSome = true →
      (ruleGroupUpdateInput demoUpdData).rules = demoUpdData.rules ∧
      (ruleGroupUpdateInput demoUpdData).ruleGroup = none) :=
  ruleGroupUpdateInput_exclusive demoUpdData

/-- C9 counterexample: a present but unchanged `rules` string does not take
precedence — because the `rule_group` block changed, the request carries
the rule group and no rules string. -/
theorem ruleGroupUpdateInput_present_rules_not_precedent_cx :
    demoPrecedenceData.rules.isSome = true ∧
    demoPrecedenceData.hasChangeRules = false ∧
    demoPrecedenceData.hasChangeRuleGroup = true ∧
    (ruleGroupUpdateInput demoPrecedenceData).rules = none ∧
    (ruleGroupUpdateInput demoPrecedenceData).ruleGroup = some demoRG := by
  refine ⟨rfl, rfl, rfl, rfl, rfl⟩

end NetworkFirewall
